import Mathlib

/-!
# Verification of the agent orchestration and sandbox lifecycle pipeline

A shallow embedding of the core of this repository: the background job in
`src/inngest/functions.ts` (tool handlers, completion-detection lifecycle
hook, network router, result persistence) together with the helpers in
`src/inngest/utils.ts`.  JavaScript objects used as string-keyed maps are
embedded as association lists with insert-or-replace update; JS truthiness
tests on strings are embedded as emptiness tests; code that can throw is
embedded with an explicit outcome parameter describing where the underlying
sandbox operation fails.
-/

namespace V1

/-- A JS object used as a `path -> content` map (`files` in the agent state),
embedded as an association list.  Objects built by the code only ever gain
keys through `jsSet`, which replaces the value of an existing key in place
(preserving property order, as JS does) or appends a fresh key at the end. -/
abbrev FileMap := List (String × String)

/-- Embedding of the JS property read `m[p]`. -/
def jsGet : FileMap → String → Option String
  | [], _ => none
  | (k, v) :: rest, p => if k = p then some v else jsGet rest p

/-- Embedding of the JS property write `m[p] = c`: replace the first entry for
`p` in place, or append `(p, c)` when `p` is not yet a key. -/
def jsSet : FileMap → String → String → FileMap
  | [], p, c => [(p, c)]
  | (k, v) :: rest, p, c =>
    if k = p then (p, c) :: rest else (k, v) :: jsSet rest p c

/-- The cumulative effect of the `createOrUpdateFiles` loop body on the files
map: each batch entry is written in order, last write wins per path. -/
def mergeFiles (m : FileMap) (batch : List (String × String)) : FileMap :=
  batch.foldl (fun acc pc => jsSet acc pc.1 pc.2) m

/-! ## The `createOrUpdateFiles` tool handler (functions.ts, lines 194-231)

The handler runs one durable step.  Inside it, `updatedFiles` is initialised
to `network.state.data.files || {}` — an *alias* of the live state map when
the state map is a (non-null) object, a fresh object otherwise.  The loop
writes each file to the sandbox and then mutates `updatedFiles` in place.  On
a throw, the step returns the string `"Error: " + error`; afterwards the
handler assigns the step result back to the state only when it is an object.
The handler body has no `return` statement, so the tool's conversational
result is `undefined` on every path, embedded as `none`. -/

/-- One run of the step body: `written` is the content of `updatedFiles` when
the closure exits, starting from the map `m`; `failAt = some j` means the
sandbox write of the `j`-th (0-based) batch entry throws with message
`errMsg`; the second component is the caught error, if any. -/
def runBatch (errMsg : String) : FileMap → List (String × String) → Option Nat →
    FileMap × Option String
  | m, [], _ => (m, none)
  | m, _ :: _, some 0 => (m, some ("Error: " ++ errMsg))
  | m, (p, c) :: rest, some (j + 1) => runBatch errMsg (jsSet m p c) rest (some j)
  | m, (p, c) :: rest, none => runBatch errMsg (jsSet m p c) rest none

/-- Everything observable about one invocation of the `createOrUpdateFiles`
handler. -/
structure WriteFilesOutcome where
  /-- `network.state.data.files` after the handler finishes. -/
  filesAfter : Option FileMap
  /-- What the inner durable step returned: the caught error string, or the
  files object. -/
  stepResult : Sum String FileMap
  /-- The handler's own return value — the tool's conversational result.  The
  source handler has no `return` statement. -/
  toolResult : Option String
deriving DecidableEq

/-- The `createOrUpdateFiles` handler.  `st` is the state's files map going in
(`none` embeds a null/undefined `files` field, for which `|| {}` allocates a
fresh object instead of aliasing the state). -/
def createOrUpdateFiles (errMsg : String) (st : Option FileMap)
    (batch : List (String × String)) (failAt : Option Nat) : WriteFilesOutcome :=
  let run := runBatch errMsg (st.getD []) batch failAt
  match run.2 with
  | none => ⟨some run.1, Sum.inr run.1, none⟩
  | some e =>
    -- the step returned a string, so the handler skips the assignment; but
    -- when `st` was an object, the loop mutated it in place through the alias
    ⟨match st with
      | some _ => some run.1
      | none => none,
     Sum.inl e, none⟩

/-! ## Shared run state, router and control loop

`AgentState` (functions.ts, lines 19-22) holds the completion summary and the
generated-files map.  The files field is embedded as an `Option` so that the
orchestrator's `!result.state.data.files` check and the tool handler's
`network.state.data.files || {}` default are expressible. -/

/-- The shared run state (`AgentState` in functions.ts). -/
structure RunState where
  summary : String
  files : Option FileMap
deriving DecidableEq

/-- The single agent variant the router can return (functions.ts routes only
to `codeAgent`). -/
inductive Agent where
  | codeAgent
deriving DecidableEq

/-- Terminal states of the control loop (spec section 4.4). -/
inductive Terminal where
  | CONVERGED
  | EXHAUSTED
deriving DecidableEq

/-- The network router (functions.ts, lines 315-321): `if (summary) return;`
— a non-empty (truthy) summary stops the loop, otherwise the code agent runs
again. -/
def router (s : RunState) : Option Agent :=
  if s.summary ≠ "" then none else some Agent.codeAgent

/-- Modelled from the spec: the network iteration loop itself lives in the
`@inngest/agent-kit` dependency (`createNetwork` with `maxIter: 10`), not in
this repository; spec section 4.4 specifies it.  Each pass first consults the
router (the summary-emptiness check) and only then the iteration ceiling
(`remaining = 0`).  `f i s` is the state after the `i`-th (0-based) agent
invocation transforms state `s`; the result records the final state, the
terminal state, and how many agent invocations were performed. -/
def networkLoop (f : Nat → RunState → RunState) :
    Nat → Nat → RunState → RunState × Terminal × Nat
  | remaining, i, s =>
    match router s with
    | none => (s, Terminal.CONVERGED, 0)
    | some _ =>
      match remaining with
      | 0 => (s, Terminal.EXHAUSTED, 0)
      | r + 1 =>
        let out := networkLoop f r (i + 1) (f i s)
        (out.1, out.2.1, out.2.2 + 1)

/-- A full network run: `maxIter = 10` (functions.ts, line 313), starting at
iteration 0. -/
def networkRun (f : Nat → RunState → RunState) (s : RunState) :
    RunState × Terminal × Nat :=
  networkLoop f 10 0 s

/-- The state after `k` agent invocations, starting from `s`. -/
def traj (f : Nat → RunState → RunState) (s : RunState) : Nat → RunState
  | 0 => s
  | k + 1 => f k (traj f s k)

/-! ## Agent output messages and the completion-detection lifecycle hook

`lastAgentResponse` is translated from `src/inngest/utils.ts` (lines 48-69),
the `onResponse` hook from functions.ts (lines 277-288).  A message's content
is either a plain string or an array of text segments (each segment's `text`
field is carried directly); a missing content field is `none`. -/

/-- A `TextMessage` content: a string, or an array of text segments. -/
inductive MsgContent where
  | str (s : String)
  | parts (texts : List String)
deriving DecidableEq

/-- One entry of an agent result's `output` array. -/
structure OutMessage where
  type : String
  role : String
  content : Option MsgContent
deriving DecidableEq

/-- `output.findLastIndex(m => m.role === "assistant")` followed by indexing:
the last message whose role is `assistant`, if any. -/
def findLastAssistant : List OutMessage → Option OutMessage
  | [] => none
  | m :: rest =>
    match findLastAssistant rest with
    | some m' => some m'
    | none => if m.role = "assistant" then some m else none

/-- `lastAgentResponse` (utils.ts, lines 48-69).  A falsy content (missing
field or empty string) yields `undefined`; array content is joined with the
empty separator. -/
def lastAgentResponse (output : List OutMessage) : Option String :=
  match findLastAssistant output with
  | none => none
  | some m =>
    match m.content with
    | none => none
    | some (MsgContent.str s) => if s = "" then none else some s
    | some (MsgContent.parts l) => some (String.join l)

/-- Whether `pat` occurs at the head of `l`. -/
def startsWith : List Char → List Char → Bool
  | [], _ => true
  | _ :: _, [] => false
  | p :: ps, c :: cs => p == c && startsWith ps cs

/-- Whether `pat` occurs anywhere in `l`. -/
def containsSub : List Char → List Char → Bool
  | l, pat =>
    startsWith pat l ||
      match l with
      | [] => false
      | _ :: rest => containsSub rest pat

/-- Embedding of JS `s.includes(pat)`. -/
def jsIncludes (s pat : String) : Bool :=
  containsSub s.data pat.data

/-- The completion marker recognised in assistant text. -/
def taskSummaryMarker : String := "<task_summary>"

/-- The `onResponse` lifecycle hook (functions.ts, lines 277-288): when the
last assistant response is truthy and contains the completion marker, the
whole response text is written into the state's `summary`.  (The source also
guards on `network` being present, which always holds inside a network run.) -/
def onResponse (output : List OutMessage) (st : RunState) : RunState :=
  match lastAgentResponse output with
  | none => st
  | some r =>
    if r = "" then st
    else if jsIncludes r taskSummaryMarker then { st with summary := r } else st

/-- The summary evolution over one job: the hook runs after every produced
agent result, and nothing else writes `summary`. -/
def runHooks (results : List (List OutMessage)) (st : RunState) : RunState :=
  results.foldl (fun acc out => onResponse out acc) st

/-! ## The terminal tool (functions.ts, lines 147-179)

The behaviour of one `sandbox.commands.run` call: the chunks streamed to the
stdout/stderr callbacks before the call finishes or throws, and its outcome
(final `result.stdout`, or the thrown error's string form). -/

/-- One observed behaviour of the sandboxed command execution. -/
structure CmdBehavior where
  stdoutChunks : List String
  stderrChunks : List String
  outcome : Except String String

/-- The terminal tool handler: accumulate the streamed chunks into the two
buffers; on success return `result.stdout`, on a throw return the descriptive
string embedding both buffers. -/
def terminalTool (b : CmdBehavior) : String :=
  match b.outcome with
  | Except.ok res => res
  | Except.error e =>
    "Command failed: " ++ e ++ " \nstdout: " ++ String.join b.stdoutChunks ++
      " \nstderr: " ++ String.join b.stderrChunks

/-! ## The readFiles tool (functions.ts, lines 245-266) -/

/-- The read loop: read each path in order, pushing `(path, content)` pairs;
the first throw aborts the whole batch with that error. -/
def readBatch (readFile : String → Except String String) :
    List String → Except String (List (String × String))
  | [] => Except.ok []
  | f :: rest =>
    match readFile f with
    | Except.error e => Except.error e
    | Except.ok c =>
      match readBatch readFile rest with
      | Except.error e => Except.error e
      | Except.ok l => Except.ok ((f, c) :: l)

/-- The readFiles tool handler: on success the contents are JSON-serialised
(the serialiser is a parameter of the model); any throw in the batch yields a
single `"Error: ..."` string instead. -/
def readFilesTool (stringify : List (String × String) → String)
    (readFile : String → Except String String) (files : List String) : String :=
  match readBatch readFile files with
  | Except.ok contents => stringify contents
  | Except.error e => "Error: " ++ e

/-! ## History seeding (functions.ts, lines 52-81)

The `message` table is append-only for a project (spec section 3), so the
`createdAt`-ascending read returns insertion order; the model takes the
project's turns as a chronologically ordered list.  The Prisma query uses
`orderBy: createdAt asc` with `take: 5`, which keeps the *first* five rows of
that order. -/

/-- A persisted conversation turn as read by the history-seeding step. -/
structure DbMessage where
  role : String
  content : String
deriving DecidableEq

/-- The agent-kit message built for each loaded turn. -/
structure AgentMessage where
  type : String
  role : String
  content : String
deriving DecidableEq

/-- Role mapping and message formatting for one loaded turn. -/
def toAgentMessage (m : DbMessage) : AgentMessage :=
  { type := "text"
    role := if m.role = "ASSISTANT" then "assistant" else "user"
    content := m.content }

/-- The `get-previous-messages` step: `findMany(orderBy createdAt asc,
take 5)` over the chronological list, then role mapping. -/
def getPreviousMessages (msgs : List DbMessage) : List AgentMessage :=
  (msgs.take 5).map toAgentMessage

/-- Modelled from the spec: "Load up to 5 most recent prior Conversation
Turns for the project, oldest-first" — the last five turns of the
chronological list, kept in chronological order, with the same role mapping. -/
def specSeedWindow (msgs : List DbMessage) : List AgentMessage :=
  (msgs.drop (msgs.length - 5)).map toAgentMessage

/-! ## Result persistence and return value (functions.ts, lines 345-450) -/

/-- `extractTextContent` (utils.ts, lines 159-169): the first output message
must be a text message, otherwise the fallback is returned; array content is
joined with the empty separator.  (The source indexes `output[0]` directly;
agent runs always produce at least one message, and the model returns the
fallback on an empty output.) -/
def extractTextContent (output : List OutMessage) (fallback : String) : String :=
  match output.head? with
  | none => fallback
  | some m =>
    if m.type ≠ "text" then fallback
    else
      match m.content with
      | none => fallback
      | some (MsgContent.str s) => s
      | some (MsgContent.parts l) => String.join l

/-- `isError` (functions.ts, lines 382-385): falsy summary, falsy files
object, or an empty files object. -/
def isError (st : RunState) : Bool :=
  (st.summary == "") ||
    match st.files with
    | none => true
    | some m => m.isEmpty

/-- The persisted message type. -/
inductive MsgType where
  | RESULT
  | ERROR
deriving DecidableEq

/-- The persisted fragment (created inside the same `prisma.message.create`
call as its owning message). -/
structure Fragment where
  sandboxUrl : String
  title : String
  files : Option FileMap
deriving DecidableEq

/-- One conversation turn as appended by the `save-result` step. -/
structure SavedMessage where
  content : String
  role : String
  type : MsgType
  fragment : Option Fragment
deriving DecidableEq

/-- The result descriptor returned to the job's caller. -/
structure JobReturn where
  url : String
  title : String
  files : Option FileMap
  summary : String
deriving DecidableEq

/-- Everything observable about the orchestrator's post-loop sequence. -/
structure JobTail where
  /-- Input of the fragment-title generator run, `none` when it is not run. -/
  titleGenInput : Option String
  /-- Input of the response generator run, `none` when it is not run. -/
  responseGenInput : Option String
  /-- The conversation turns appended by the `save-result` step. -/
  saved : List SavedMessage
  /-- The value returned to the caller. -/
  returned : JobReturn
deriving DecidableEq

/-- The fixed error-turn content (functions.ts, lines 418-419). -/
def fixedErrorContent : String :=
  "The agent was unable to complete the task within the maximum iterations."

/-- The fallback response content (functions.ts, lines 430-431). -/
def fallbackResponse : String :=
  "The agent was unable to generate a response. Please try again."

/-- The orchestrator after the network run (functions.ts, lines 345-450):
both post-processing agents are run on `result.state.data.summary`, the
sandbox URL is resolved from the exposed host, `save-result` appends one
ASSISTANT turn (with a fragment exactly on the non-error branch), and the
result descriptor is returned.  `st` is the shared run state at loop
termination; the generator outputs are parameters (the LLM collaborator). -/
def jobTail (st : RunState) (host : String)
    (fragmentTitleOutput responseOutput : List OutMessage) : JobTail :=
  let sandboxUrl := "https://" ++ host
  { titleGenInput := some st.summary
    responseGenInput := some st.summary
    saved :=
      if isError st then
        [{ content := fixedErrorContent
           role := "ASSISTANT"
           type := MsgType.ERROR
           fragment := none }]
      else
        [{ content := extractTextContent responseOutput fallbackResponse
           role := "ASSISTANT"
           type := MsgType.RESULT
           fragment := some { sandboxUrl := sandboxUrl
                              title := extractTextContent fragmentTitleOutput "Fragment"
                              files := st.files } }]
    returned := { url := sandboxUrl
                  title := "Fragment"
                  files := st.files
                  summary := st.summary } }

/-! ## Concrete sample data used by witnesses and counterexamples -/

/-- A project history of six turns in chronological order. -/
def sixTurns : List DbMessage :=
  [{ role := "USER", content := "m1" }, { role := "ASSISTANT", content := "m2" },
   { role := "USER", content := "m3" }, { role := "ASSISTANT", content := "m4" },
   { role := "USER", content := "m5" }, { role := "USER", content := "m6" }]

/-- An agent-step function that produces the completion marker exactly on its
10th invocation (0-based index 9). -/
def stepAtNine : Nat → RunState → RunState :=
  fun k s => if k = 9 then { s with summary := "<task_summary> done" } else s

/-- The initial shared run state (functions.ts, lines 91-99). -/
def emptyStart : RunState := { summary := "", files := some [] }

/-- A command execution that streams two stdout chunks and one stderr chunk
and then throws. -/
def sampleCmd : CmdBehavior :=
  { stdoutChunks := ["out1", "out2"], stderrChunks := ["err1"],
    outcome := Except.error "boom" }

/-- A sandbox read that always throws. -/
def failingRead : String → Except String String :=
  fun _ => Except.error "nope"

/-- An agent result whose last assistant message contains the completion
marker. -/
def sampleOut : List OutMessage :=
  [{ type := "text", role := "assistant",
     content := some (MsgContent.str "built a counter <task_summary> added counter.tsx") }]

/-- A one-result run producing `sampleOut`. -/
def sampleResults : List (List OutMessage) := [sampleOut]

/-! ## Helper lemmas -/

/-- Reading an updated map: the written path now holds the new content and
every other path is untouched (so no entry is ever removed). -/
theorem jsGet_jsSet (m : FileMap) (p c q : String) :
    jsGet (jsSet m p c) q = if q = p then some c else jsGet m q := by
  induction m with
  | nil =>
    simp only [jsSet, jsGet]
    by_cases h : p = q
    · subst h; simp
    · rw [if_neg h, if_neg fun h' => h h'.symm]
  | cons kv rest ih =>
    obtain ⟨k, v⟩ := kv
    by_cases hk : k = p
    · subst hk
      by_cases hq : q = k
      · subst hq; simp [jsSet, jsGet]
      · have hq' : ¬ k = q := fun h => hq h.symm
        simp [jsSet, jsGet, hq, hq']
    · by_cases hq : q = p
      · subst hq
        simp [jsSet, jsGet, hk, ih]
      · by_cases hkq : k = q
        · subst hkq; simp [jsSet, jsGet, hk, hq, ih]
        · simp [jsSet, jsGet, hk, hq, hkq, ih]

/-- Writing the same `(path, content)` twice produces the same map as writing
it once. -/
theorem jsSet_idem (m : FileMap) (p c : String) :
    jsSet (jsSet m p c) p c = jsSet m p c := by
  induction m with
  | nil => simp [jsSet]
  | cons kv rest ih =>
    obtain ⟨k, v⟩ := kv
    by_cases hk : k = p
    · subst hk; simp [jsSet]
    · simp [jsSet, hk, ih]

theorem runBatch_none (errMsg : String) (batch : List (String × String)) :
    ∀ m : FileMap, runBatch errMsg m batch none = (mergeFiles m batch, none) := by
  induction batch with
  | nil => intro m; simp [runBatch, mergeFiles]
  | cons pc rest ih =>
    intro m
    obtain ⟨p, c⟩ := pc
    simp [runBatch, mergeFiles, ih (jsSet m p c)]

theorem runBatch_fail (errMsg : String) (batch : List (String × String)) :
    ∀ (m : FileMap) (j : Nat), j < batch.length →
      runBatch errMsg m batch (some j) =
        (mergeFiles m (batch.take j), some ("Error: " ++ errMsg)) := by
  induction batch with
  | nil => intro m j h; exact absurd h (by simp)
  | cons pc rest ih =>
    intro m j h
    obtain ⟨p, c⟩ := pc
    match j with
    | 0 => simp [runBatch, mergeFiles]
    | j' + 1 =>
      have hj : j' < rest.length := by simpa using h
      simp [runBatch, ih (jsSet m p c) j' hj, mergeFiles]

theorem networkLoop_count_le (f : Nat → RunState → RunState) :
    ∀ (r i : Nat) (s : RunState), (networkLoop f r i s).2.2 ≤ r := by
  intro r
  induction r with
  | zero =>
    intro i s
    cases h : router s <;> simp [networkLoop, h]
  | succ r ih =>
    intro i s
    cases h : router s with
    | none => simp [networkLoop, h]
    | some a =>
      have := ih (i + 1) (f i s)
      simp only [networkLoop, h]
      omega

/-- If the summary stays empty through the first `r` invocations counted from
iteration `i` and becomes non-empty after them, the loop started at `(r, i)`
converges on exactly that state. -/
theorem networkLoop_converges (f : Nat → RunState → RunState) (s0 : RunState) :
    ∀ (r i : Nat),
      (∀ k, i ≤ k → k < i + r → (traj f s0 k).summary = "") →
      (traj f s0 (i + r)).summary ≠ "" →
      networkLoop f r i (traj f s0 i) = (traj f s0 (i + r), Terminal.CONVERGED, r) := by
  intro r
  induction r with
  | zero =>
    intro i _ hfull
    rw [Nat.add_zero] at hfull ⊢
    have hr : router (traj f s0 i) = none := by
      simp [router, hfull]
    simp [networkLoop, hr]
  | succ r ih =>
    intro i hempty hfull
    have hi : (traj f s0 i).summary = "" := hempty i le_rfl (by omega)
    have hr : router (traj f s0 i) = some Agent.codeAgent := by
      simp [router, hi]
    have hstep : f i (traj f s0 i) = traj f s0 (i + 1) := rfl
    have harith : i + (r + 1) = (i + 1) + r := by omega
    have ihh := ih (i + 1)
      (fun k hk1 hk2 => hempty k (by omega) (by omega))
      (by rw [← harith]; exact hfull)
    simp only [networkLoop, hr, hstep, ihh, harith]

theorem onResponse_summary (out : List OutMessage) (st : RunState) :
    (onResponse out st).summary = st.summary ∨
      (lastAgentResponse out = some (onResponse out st).summary ∧
        jsIncludes (onResponse out st).summary taskSummaryMarker = true) := by
  unfold onResponse
  cases h : lastAgentResponse out with
  | none => exact Or.inl rfl
  | some r =>
    by_cases hr : r = ""
    · simp [hr]
    · by_cases hinc : jsIncludes r taskSummaryMarker
      · right
        simp [hr, hinc, h]
      · simp [hr, hinc]

theorem runHooks_summary (results : List (List OutMessage)) :
    ∀ st : RunState, (runHooks results st).summary = st.summary ∨
      ∃ out ∈ results, lastAgentResponse out = some (runHooks results st).summary ∧
        jsIncludes (runHooks results st).summary taskSummaryMarker = true := by
  induction results with
  | nil => intro st; exact Or.inl rfl
  | cons out rest ih =>
    intro st
    have hfold : runHooks (out :: rest) st = runHooks rest (onResponse out st) := rfl
    rw [hfold]
    rcases ih (onResponse out st) with h | ⟨out', hmem, h1, h2⟩
    · rw [h]
      rcases onResponse_summary out st with h' | ⟨h1, h2⟩
      · exact Or.inl h'
      · exact Or.inr ⟨out, List.mem_cons_self out rest, h1, h2⟩
    · exact Or.inr ⟨out', List.mem_cons_of_mem out hmem, h1, h2⟩

theorem readBatch_fails_of_mem (readFile : String → Except String String) :
    ∀ (files : List String) (f : String) (e : String),
      f ∈ files → readFile f = Except.error e →
      ∃ e2, readBatch readFile files = Except.error e2 := by
  intro files
  induction files with
  | nil => intro f e h; exact absurd h (List.not_mem_nil f)
  | cons g rest ih =>
    intro f e hmem herr
    rcases List.mem_cons.mp hmem with rfl | hmem'
    · exact ⟨e, by simp [readBatch, herr]⟩
    · cases hg : readFile g with
      | error e' => exact ⟨e', by simp [readBatch, hg]⟩
      | ok c =>
        obtain ⟨e2, h2⟩ := ih f e hmem' herr
        exact ⟨e2, by simp [readBatch, hg, h2]⟩

theorem isError_iff (st : RunState) :
    isError st = true ↔
      (st.summary = "" ∨ st.files = none ∨ st.files.getD [] = []) := by
  cases hf : st.files with
  | none => simp [isError, hf]
  | some m => simp [isError, hf, List.isEmpty_iff]

/-! ## Claim theorems -/

/-- C1: the save-result step appends exactly one ASSISTANT turn, whose type
is ERROR exactly when the loop-final summary is empty or the files map is
empty or absent, and the fragment (sandboxUrl, title, files) is part of that
single persistence call exactly when the type is RESULT. -/
theorem c1_save_result_one_turn (st : RunState) (host : String)
    (fragmentTitleOutput responseOutput : List OutMessage) :
    ∃ msg : SavedMessage,
      (jobTail st host fragmentTitleOutput responseOutput).saved = [msg] ∧
      msg.role = "ASSISTANT" ∧
      (msg.type = MsgType.ERROR ↔
        (st.summary = "" ∨ st.files = none ∨ st.files.getD [] = [])) ∧
      (msg.fragment.isSome ↔ msg.type = MsgType.RESULT) ∧
      msg.fragment =
        (if isError st then none
         else some { sandboxUrl := "https://" ++ host
                     title := extractTextContent fragmentTitleOutput "Fragment"
                     files := st.files }) := by
  by_cases h : isError st
  · refine ⟨{ content := fixedErrorContent, role := "ASSISTANT",
              type := MsgType.ERROR, fragment := none }, ?_, rfl, ?_, ?_, ?_⟩
    · simp [jobTail, h]
    · exact iff_of_true rfl ((isError_iff st).mp h)
    · simp
    · simp [h]
  · refine ⟨{ content := extractTextContent responseOutput fallbackResponse
              role := "ASSISTANT"
              type := MsgType.RESULT
              fragment := some { sandboxUrl := "https://" ++ host
                                 title := extractTextContent fragmentTitleOutput "Fragment"
                                 files := st.files } }, ?_, rfl, ?_, ?_, ?_⟩
    · simp [jobTail, h]
    · exact iff_of_false (by simp) fun hc => h ((isError_iff st).mpr hc)
    · simp
    · simp [h]

/-- C2 (code evaluated at the failing input): with six prior turns, the
history-seeding step (`orderBy createdAt asc, take 5`) loads the five
*oldest* turns, not the five most recent ones demanded by the claim; the
role mapping itself is as claimed. -/
theorem c2_seeds_oldest_not_most_recent :
    getPreviousMessages sixTurns =
      [{ type := "text", role := "user", content := "m1" },
       { type := "text", role := "assistant", content := "m2" },
       { type := "text", role := "user", content := "m3" },
       { type := "text", role := "assistant", content := "m4" },
       { type := "text", role := "user", content := "m5" }] ∧
    specSeedWindow sixTurns =
      [{ type := "text", role := "assistant", content := "m2" },
       { type := "text", role := "user", content := "m3" },
       { type := "text", role := "assistant", content := "m4" },
       { type := "text", role := "user", content := "m5" },
       { type := "text", role := "user", content := "m6" }] ∧
    getPreviousMessages sixTurns ≠ specSeedWindow sixTurns :=
  ⟨by decide, by decide, by decide⟩

/-- C3 (counterexample): on a run whose loop terminated with an empty summary
(the EXHAUSTED case), both post-processing agents are still invoked (each on
the empty summary), and the error turn is persisted — contradicting the claim
that neither agent runs in that case. -/
theorem c3_counterexample :
    (jobTail { summary := "", files := some [] } "host" [] []).titleGenInput = some "" ∧
    (jobTail { summary := "", files := some [] } "host" [] []).responseGenInput = some "" ∧
    (jobTail { summary := "", files := some [] } "host" [] []).saved =
      [{ content := fixedErrorContent, role := "ASSISTANT",
         type := MsgType.ERROR, fragment := none }] :=
  ⟨rfl, rfl, by decide⟩

/-- C3 (amended): both post-processing agents are invoked unconditionally
after the control loop, on the loop-final summary — even when the loop ended
with an empty summary, in which case the error persistence path is still
taken and their outputs are unused. -/
theorem c3_generators_always_run (st : RunState) (host : String)
    (fragmentTitleOutput responseOutput : List OutMessage) :
    (jobTail st host fragmentTitleOutput responseOutput).titleGenInput = some st.summary ∧
    (jobTail st host fragmentTitleOutput responseOutput).responseGenInput = some st.summary ∧
    (jobTail { st with summary := "" } host fragmentTitleOutput responseOutput).saved =
      [{ content := fixedErrorContent, role := "ASSISTANT",
         type := MsgType.ERROR, fragment := none }] := by
  refine ⟨rfl, rfl, ?_⟩
  have h : isError { st with summary := "" } = true := by
    cases hf : st.files <;> simp [isError]
  simp [jobTail, h]

/-- C4: the router's summary-emptiness check precedes the iteration-ceiling
check on every pass, so a run whose summary first becomes non-empty on the
10th (final allowed) agent invocation terminates CONVERGED, on that state,
after exactly 10 invocations. -/
theorem c4_completion_on_final_iteration (f : Nat → RunState → RunState)
    (s0 : RunState)
    (hempty : ∀ k, k < 10 → (traj f s0 k).summary = "")
    (hfull : (traj f s0 10).summary ≠ "") :
    networkRun f s0 = (traj f s0 10, Terminal.CONVERGED, 10) := by
  have h := networkLoop_converges f s0 10 0
    (fun k _ hk => hempty k (by omega)) (by simpa using hfull)
  simpa [networkRun, traj] using h

/-- C4 (witness): a concrete agent-step function that produces the completion
marker exactly on its 10th invocation. -/
theorem c4_completion_on_final_iteration_witness :
    (∀ k, k < 10 → (traj stepAtNine emptyStart k).summary = "") ∧
    (traj stepAtNine emptyStart 10).summary ≠ "" ∧
    networkRun stepAtNine emptyStart =
      (traj stepAtNine emptyStart 10, Terminal.CONVERGED, 10) :=
  ⟨by decide, by decide,
    c4_completion_on_final_iteration stepAtNine emptyStart (by decide) (by decide)⟩

/-- C5: for every agent behaviour and every starting state, the control loop
performs at most 10 agent invocations and ends in one of the two terminal
states. -/
theorem c5_loop_bounded (f : Nat → RunState → RunState) (s : RunState) :
    (networkRun f s).2.2 ≤ 10 ∧
    ((networkRun f s).2.1 = Terminal.CONVERGED ∨
      (networkRun f s).2.1 = Terminal.EXHAUSTED) := by
  refine ⟨networkLoop_count_le f 10 0 s, ?_⟩
  cases h : (networkRun f s).2.1
  · exact Or.inl rfl
  · exact Or.inr rfl

/-- C6: a write-files update only adds or overwrites the written path and
leaves every other path untouched (so no entry is ever removed, last write
wins per path), and applying the same `(path, content)` write twice — at the
map level and through the tool handler — yields the same files map as
applying it once. -/
theorem c6_write_files_merge (e p c q : String) (m : FileMap) :
    jsGet (jsSet m p c) q = (if q = p then some c else jsGet m q) ∧
    jsSet (jsSet m p c) p c = jsSet m p c ∧
    (createOrUpdateFiles e
        ((createOrUpdateFiles e (some m) [(p, c)] none).filesAfter)
        [(p, c)] none).filesAfter =
      (createOrUpdateFiles e (some m) [(p, c)] none).filesAfter := by
  refine ⟨jsGet_jsSet m p c q, jsSet_idem m p c, ?_⟩
  simp [createOrUpdateFiles, runBatch, jsSet_idem]

/-- C7 (counterexample): when the sandbox write throws during a write-files
batch, the handler records the descriptive error string only as the durable
step's result; the handler itself returns nothing, so the tool's
conversational result is not an error string — contradicting the claim that
all three tools return the error string as their conversational result. -/
theorem c7_counterexample :
    (createOrUpdateFiles "boom" (some []) [("a", "1")] (some 0)).stepResult =
      Sum.inl ("Error: " ++ "boom") ∧
    (createOrUpdateFiles "boom" (some []) [("a", "1")] (some 0)).toolResult = none :=
  ⟨by decide, by decide⟩

/-- C7 (amended): a throwing sandbox operation never escapes a tool as an
exception: run-command returns a descriptive string embedding both the stdout
and stderr buffers captured before the failure; read-files returns a single
error string for the whole batch (never a partial array), and some read
failure always aborts the batch; write-files catches the error into its step
result but its handler returns no conversational result at all. -/
theorem c7_tool_transport_errors :
    (∀ (b : CmdBehavior) (e : String), b.outcome = Except.error e →
      terminalTool b =
        "Command failed: " ++ e ++ " \nstdout: " ++ String.join b.stdoutChunks ++
          " \nstderr: " ++ String.join b.stderrChunks) ∧
    (∀ (stringify : List (String × String) → String)
        (readFile : String → Except String String) (files : List String) (e : String),
      readBatch readFile files = Except.error e →
      readFilesTool stringify readFile files = "Error: " ++ e) ∧
    (∀ (readFile : String → Except String String) (files : List String) (f e : String),
      f ∈ files → readFile f = Except.error e →
      ∃ e2, readBatch readFile files = Except.error e2) ∧
    (∀ (errMsg : String) (st : Option FileMap) (batch : List (String × String))
        (failAt : Option Nat),
      (createOrUpdateFiles errMsg st batch failAt).toolResult = none) := by
  refine ⟨?_, ?_, ?_, ?_⟩
  · intro b e h
    simp [terminalTool, h]
  · intro stringify readFile files e h
    simp [readFilesTool, h]
  · intro readFile files f e hmem herr
    exact readBatch_fails_of_mem readFile files f e hmem herr
  · intro errMsg st batch failAt
    unfold createOrUpdateFiles
    cases h : (runBatch errMsg (st.getD []) batch failAt).2 <;> simp [h]

/-- C7 (witness): concrete throwing behaviours for each of the three tools. -/
theorem c7_tool_transport_errors_witness :
    terminalTool sampleCmd =
      "Command failed: boom \nstdout: out1out2 \nstderr: err1" ∧
    readFilesTool (fun _ => "") failingRead ["a.txt", "b.txt"] = "Error: nope" ∧
    (∃ e2, readBatch failingRead ["a.txt"] = Except.error e2) ∧
    (createOrUpdateFiles "oops" (some []) [("a", "1")] (some 0)).toolResult = none := by
  refine ⟨?_, ?_, ?_, ?_⟩
  · rw [c7_tool_transport_errors.1 sampleCmd "boom" rfl]
    decide
  · rw [c7_tool_transport_errors.2.1 (fun _ => "") failingRead ["a.txt", "b.txt"] "nope" rfl]
    decide
  · exact c7_tool_transport_errors.2.2.1 failingRead ["a.txt"] "a.txt" "nope"
      (by decide) rfl
  · exact c7_tool_transport_errors.2.2.2 "oops" (some []) [("a", "1")] (some 0)

/-- C8: the summary can only become non-empty through the lifecycle hook
seeing a last assistant response that contains the completion marker, in
which case the hook stores that full response text; whenever the hook fires
on such a text it writes the full text into the summary. -/
theorem c8_summary_only_from_marker (results : List (List OutMessage))
    (st0 : RunState) (h0 : st0.summary = "") :
    ((runHooks results st0).summary ≠ "" →
      ∃ out ∈ results,
        lastAgentResponse out = some (runHooks results st0).summary ∧
        jsIncludes (runHooks results st0).summary taskSummaryMarker = true) ∧
    (∀ (out : List OutMessage) (st : RunState) (r : String),
      lastAgentResponse out = some r → jsIncludes r taskSummaryMarker = true →
      (onResponse out st).summary = r) := by
  constructor
  · intro hne
    rcases runHooks_summary results st0 with h | h
    · exact absurd (h.trans h0) hne
    · exact h
  · intro out st r hlast hinc
    have hr : r ≠ "" := by
      intro he
      subst he
      exact absurd hinc (by decide)
    simp [onResponse, hlast, hr, hinc]

/-- C8 (witness): a concrete assistant response containing the marker. -/
theorem c8_summary_only_from_marker_witness :
    emptyStart.summary = "" ∧
    (onResponse sampleOut emptyStart).summary =
      "built a counter <task_summary> added counter.tsx" :=
  ⟨rfl,
    (c8_summary_only_from_marker sampleResults emptyStart rfl).2 sampleOut emptyStart
      "built a counter <task_summary> added counter.tsx" (by decide) (by decide)⟩

/-- C9 (counterexample): a loop-final state with a non-empty summary but an
empty files map takes the error branch, yet the returned descriptor still
carries that non-empty summary — contradicting the claim that on the error
branch every field other than `url` is empty or a default. -/
theorem c9_counterexample :
    isError { summary := "<task_summary> done", files := some [] } = true ∧
    (jobTail { summary := "<task_summary> done", files := some [] } "host" [] []).returned.summary
      = "<task_summary> done" ∧
    (jobTail { summary := "<task_summary> done", files := some [] } "host" [] []).returned.summary
      ≠ "" :=
  ⟨by decide, rfl, by decide⟩

/-- C9 (amended): the job returns `{ url, title, files, summary }` on both
branches, with `url` resolved from the sandbox host on both branches; but
`title` is always the fixed default "Fragment", and `files` and `summary` are
the loop-final state values on both branches (so they may be non-empty on the
error branch). -/
theorem c9_return_shape (st : RunState) (host : String)
    (fragmentTitleOutput responseOutput : List OutMessage) :
    (jobTail st host fragmentTitleOutput responseOutput).returned =
      { url := "https://" ++ host, title := "Fragment",
        files := st.files, summary := st.summary } :=
  rfl

/-- C10: if the state's files map is a live object when a write-files batch
begins and the sandbox write of entry `j` throws, the entries before `j` are
nevertheless visible in the state when the step returns its error string
(the loop mutated the state map through the `|| {}` alias), while a batch
started with an absent files map leaves the state unchanged on failure. -/
theorem c10_partial_batch_aliasing (e : String) (m : FileMap)
    (batch : List (String × String)) (j : Nat) (h : j < batch.length) :
    (createOrUpdateFiles e (some m) batch (some j)).filesAfter =
      some (mergeFiles m (batch.take j)) ∧
    (createOrUpdateFiles e (some m) batch (some j)).stepResult =
      Sum.inl ("Error: " ++ e) ∧
    (createOrUpdateFiles e none batch (some j)).filesAfter = none := by
  have h1 := runBatch_fail e batch m j h
  have h2 := runBatch_fail e batch [] j h
  refine ⟨?_, ?_, ?_⟩ <;> simp [createOrUpdateFiles, h1, h2]

/-- C10 (witness): a three-entry batch whose third write throws, leaving the
first two entries in the state. -/
theorem c10_partial_batch_aliasing_witness :
    2 < ([("a", "1"), ("b", "2"), ("c", "3")] : List (String × String)).length ∧
    (createOrUpdateFiles "boom" (some [("p", "v")])
        [("a", "1"), ("b", "2"), ("c", "3")] (some 2)).filesAfter =
      some (mergeFiles [("p", "v")] ([("a", "1"), ("b", "2"), ("c", "3")].take 2)) ∧
    (createOrUpdateFiles "boom" (some [("p", "v")])
        [("a", "1"), ("b", "2"), ("c", "3")] (some 2)).stepResult =
      Sum.inl ("Error: " ++ "boom") ∧
    (createOrUpdateFiles "boom" none
        [("a", "1"), ("b", "2"), ("c", "3")] (some 2)).filesAfter = none :=
  ⟨by decide,
    c10_partial_batch_aliasing "boom" [("p", "v")]
      [("a", "1"), ("b", "2"), ("c", "3")] 2 (by decide)⟩

end V1
